import Mathlib

/-!
Verification development for the Dependify backend (kshitizz36/Dependify).

The definitions below are a shallow embedding of the Python sources under
src/backend/.  External collaborators (the Anthropic model calls, Supabase,
git, Modal dispatch) are modelled as explicit oracle functions passed in as
arguments; everything the repository's own code computes is translated
directly.

Sections:
 * modal_verify.py : the verify_and_fix retry loop (Verification-Repair
   state machine).
 * checker.py      : artifact enumeration and the exclusion filter.
 * server.py       : the /update pipeline orchestration (stage wiring,
   the path join, response construction, staging-directory cleanup).
-/

namespace Dependify

/-! ## modal_verify.py -/

/-- The parsed JSON returned by the validator (verify_code).  The Python code
reads the fields with dict.get and a default, so each field is an Option;
getD supplies the Python default. -/
structure VerifyResult where
  passed : Option Bool
  confidence : Option ℚ
  issues : List String
  deriving DecidableEq

/-- The job dict handed to verify_and_fix (and built by server.py step 3). -/
structure VerifyJob where
  file_path : String
  original_code : String
  refactored_code : String
  comments : String
  deriving DecidableEq

/-- The dict returned by verify_and_fix. -/
structure VerifyOutput where
  file_path : String
  refactored_code : String
  refactored_code_comments : String
  verified : Bool
  attempts : Nat
  deriving DecidableEq

/-- modal_verify.py line 10. -/
def MAX_RETRIES : Nat := 2

/-- modal_verify.py line 169: the result substituted when verify_code raises
or its output cannot be parsed as JSON. -/
def fallbackResult : VerifyResult :=
  { passed := some true, issues := [], confidence := some (mkRat 1 2) }

/-- modal_verify.py line 171: result.get("passed", False) or
result.get("confidence", 0) > 0.85.  The threshold 0.85 is written with the
kernel-computable constructor Rat.divInt; the claim theorems relate it to
the rational 85/100. -/
def acceptOutcome (r : VerifyResult) : Bool :=
  r.passed.getD false || decide (Rat.divInt 85 100 < r.confidence.getD 0)

/-- The dict returned on the PASSED branch (modal_verify.py lines 183-189). -/
def verifiedOutput (job : VerifyJob) (current : String) (attempt : Nat) :
    VerifyOutput :=
  { file_path := job.file_path, refactored_code := current,
    refactored_code_comments := job.comments, verified := true,
    attempts := attempt + 1 }

/-- The dict returned after the loop (modal_verify.py lines 217-223); also
reached via the break on line 213.  Note the attempts field is the constant
MAX_RETRIES + 1. -/
def exhaustedOutput (job : VerifyJob) (current : String) : VerifyOutput :=
  { file_path := job.file_path, refactored_code := current,
    refactored_code_comments := job.comments, verified := false,
    attempts := MAX_RETRIES + 1 }

/-- The for-loop of verify_and_fix (modal_verify.py lines 149-213).

The validator oracle models verify_code: none means the call raised or its
output failed to parse (replaced by fallbackResult, line 169).  The fixer
oracle models the analyze_failure-then-fix_code pair inside the try block on
lines 205-213: none means one of the two raised (the break), some c is the
new candidate.  Both oracles receive the loop index and the current
candidate.

Arguments of the recursion: iterations remaining in range(MAX_RETRIES + 1),
the current value of attempt, current_code, and the number of VERIFYING
progress entries emitted so far (one per iteration entered, line 155).
The result pairs the returned dict with the final VERIFYING count. -/
def verifyLoopAux (validator : Nat → String → Option VerifyResult)
    (fixer : Nat → String → Option String) (job : VerifyJob) :
    Nat → Nat → String → Nat → VerifyOutput × Nat
  | 0, _, current, validations => (exhaustedOutput job current, validations)
  | remaining + 1, attempt, current, validations =>
    let result := (validator attempt current).getD fallbackResult
    if acceptOutcome result then
      (verifiedOutput job current attempt, validations + 1)
    else if attempt < MAX_RETRIES then
      match fixer attempt current with
      | none => (exhaustedOutput job current, validations + 1)
      | some fixed =>
          verifyLoopAux validator fixer job remaining (attempt + 1) fixed
            (validations + 1)
    else
      verifyLoopAux validator fixer job remaining (attempt + 1) current
        (validations + 1)

/-- verify_and_fix (modal_verify.py lines 146-223), with the model calls
abstracted as oracles.  Returns the result dict together with the number of
VERIFYING status entries emitted. -/
def verify_and_fix (validator : Nat → String → Option VerifyResult)
    (fixer : Nat → String → Option String) (job : VerifyJob) :
    VerifyOutput × Nat :=
  verifyLoopAux validator fixer job (MAX_RETRIES + 1) 0 job.refactored_code 0

/-! ## checker.py -/

/-- The pydantic model CodeChange (checker.py lines 19-23). -/
structure CodeChange where
  path : String
  code_content : String
  reason : String
  add : Bool
  deriving DecidableEq

/-- The extension denylist of checker.py line 121 (the tuple given to
str.endswith). -/
def DENYLIST : List String :=
  [".css", ".json", ".md", ".svg", ".ico", ".mjs", ".gitignore", ".env"]

/-- Python str.startswith, over the character lists of the two strings. -/
def strStartsWith (s t : String) : Bool := t.data.isPrefixOf s.data

/-- Python str.endswith, over the character lists of the two strings. -/
def strEndsWith (s t : String) : Bool := t.data.isSuffixOf s.data

/-- os.path.basename for the slash-separated paths os.walk produces: the
characters after the last slash. -/
def basename (p : String) : String :=
  String.mk ((p.data.reverse.takeWhile (fun c => c != '/')).reverse)

/-- Does pat occur as a contiguous run inside l. -/
def isInfixChars (pat : List Char) : List Char → Bool
  | [] => pat.isEmpty
  | c :: cs => pat.isPrefixOf (c :: cs) || isInfixChars pat cs

/-- The Python substring test (pat in s). -/
def containsStr (s pat : String) : Bool := isInfixChars pat.data s.data

/-- The exclusion test of checker.py lines 119-123: basename starts with a
dot, or the filename ends with a denylisted extension, or ".git/" occurs in
the path. -/
def isSkippedFile (filepath : String) : Bool :=
  strStartsWith (basename filepath) "." ||
  DENYLIST.any (fun ext => strEndsWith filepath ext) ||
  containsStr filepath ".git/"

/-- A directory tree, standing in for the filesystem that os.walk visits. -/
inductive FSEntry where
  | file (name : String)
  | dir (name : String) (children : List FSEntry)

mutual

/-- get_all_files_recursively (checker.py lines 25-35): every file path under
the root, each joined with "/" as os.path.join does on the walk. -/
def collectFiles (root : String) : FSEntry → List String
  | .file n => [root ++ "/" ++ n]
  | .dir n cs => collectFilesList (root ++ "/" ++ n) cs

def collectFilesList (root : String) : List FSEntry → List String
  | [] => []
  | e :: es => collectFiles root e ++ collectFilesList root es

end

def get_all_files_recursively (root : String) (entries : List FSEntry) :
    List String :=
  collectFilesList root entries

/-- fetch_updates (checker.py lines 111-134), with analyze_file_with_llm as
an oracle: none models a parse or infrastructure error (the function returns
None).  A surviving result has its path overwritten with the file path, as
on line 131; a result with add = False is skipped (line 128). -/
def fetch_updates (analyze : String → Option CodeChange)
    (files : List String) : List CodeChange :=
  files.filterMap (fun fp =>
    if isSkippedFile fp then none
    else
      match analyze fp with
      | none => none
      | some r => if r.add = false then none else some { r with path := fp })

/-! ## server.py -/

/-- The dict returned by process_file in modal_write.py (Stage 2). -/
structure WriteOutput where
  file_path : String
  refactored_code : String
  refactored_code_comments : String
  deriving DecidableEq

/-- server.py lines 198-201 and 221-224: look the artifact path up in the
Stage-1 job list.  This is the correlator join key. -/
def findOriginal (job_list : List CodeChange) (fp : String) :
    Option CodeChange :=
  job_list.find? (fun j => j.path == fp)

/-- server.py lines 202-207: the verify job built for one Stage-2 output.
When the join finds no Stage-1 entry the original code is the empty
string. -/
def buildVerifyJob (job_list : List CodeChange) (o : WriteOutput) :
    VerifyJob :=
  { file_path := o.file_path,
    original_code :=
      ((findOriginal job_list o.file_path).map CodeChange.code_content).getD "",
    refactored_code := o.refactored_code,
    comments := o.refactored_code_comments }

/-- server.py lines 196-207: the whole Stage-2-to-Stage-3 join. -/
def buildVerifyJobs (job_list : List CodeChange) (ws : List WriteOutput) :
    List VerifyJob :=
  ws.map (buildVerifyJob job_list)

/-- server.py lines 217-219: re-root the artifact path into the staging
directory, by slicing 24 characters when the path is nonempty and longer
than 24 characters, else joining the staging dir with the basename. -/
def stagingPath (staging_dir file_path : String) : String :=
  if file_path != "" && decide (24 < file_path.data.length) then
    staging_dir ++ String.mk (file_path.data.drop 24)
  else staging_dir ++ "/" ++ basename file_path

/-- One entry of refactored_jobs (server.py lines 225-230). -/
structure RefactoredJob where
  path : String
  new_content : String
  old_content : String
  comments : String
  deriving DecidableEq

/-- server.py lines 216-230: the dict appended for one verify result.  Only
file_path, refactored_code and refactored_code_comments of the result are
read; its verified and attempts fields are used for logging only. -/
def buildRefactoredJob (staging_dir : String) (job_list : List CodeChange)
    (result : VerifyOutput) : RefactoredJob :=
  { path := stagingPath staging_dir result.file_path,
    new_content := result.refactored_code,
    old_content :=
      ((findOriginal job_list result.file_path).map CodeChange.code_content).getD "",
    comments := result.refactored_code_comments }

/-- The parts of create_fork's return value the endpoint reads. -/
structure ForkResult where
  is_own_repo : Bool
  clone_url : String
  owner_login : String
  deriving DecidableEq

/-- The fork_info block added to the response when the repo was forked
(server.py lines 332-339). -/
structure ForkInfo where
  fork_owner : String
  fork_name : String
  deriving DecidableEq

/-- The success response dict of server.py lines 319-341. -/
structure SuccessResponse where
  status : String
  message : String
  repository : String
  files_analyzed : Nat
  files_updated : Nat
  branch : String
  pull_request_url : String
  is_own_repo : Bool
  output : List RefactoredJob
  fork_info : Option ForkInfo
  deriving DecidableEq

/-- The early success response of server.py lines 163-169, returned when
Stage 1 found nothing. -/
structure NoFilesResponse where
  status : String
  message : String
  repository : String
  files_analyzed : Nat
  files_updated : Nat
  deriving DecidableEq

/-- A terminal outcome of one /update run: a full success dict, the
no-outdated-files success dict, or an HTTP error (status code and detail
string), covering both raised HTTPExceptions and the except-clauses that
convert other exceptions to 500 responses. -/
inductive RunOutcome where
  | ok (r : SuccessResponse)
  | okNoFiles (r : NoFilesResponse)
  | err (status : Nat) (detail : String)
  deriving DecidableEq

def RunOutcome.isSuccess : RunOutcome → Bool
  | .ok _ => true
  | .okNoFiles _ => true
  | .err _ _ => false

/-- The request payload (server.py lines 54-64). -/
structure Payload where
  repository : String
  repository_owner : String
  repository_name : String
  deriving DecidableEq

/-- The external collaborators the /update endpoint calls, as oracles.
An Except.error models a raised exception that the endpoint's except
clauses turn into an HTTP 500; an Option none models a per-job worker
failure tolerated by the batch. -/
structure Oracles where
  run_script : Except String (List CodeChange)
  process_file : CodeChange → Option WriteOutput
  verify : VerifyJob → Option VerifyOutput
  create_fork : Except String (Option ForkResult)
  clone_ok : Bool
  load_repo : Except String Unit
  file_exists : String → Bool
  write_ok : String → Bool
  push_branch : Except String (String × String)
  make_pr : Except String String

/-- server.py lines 180-186: keep a Stage-2 output only when it is non-null
and its refactored_code is truthy (Python: a non-empty string). -/
def writeOutputsOf (o : Oracles) (job_list : List CodeChange) :
    List WriteOutput :=
  job_list.filterMap (fun j =>
    match o.process_file j with
    | some w => if w.refactored_code != "" then some w else none
    | none => none)

/-- server.py lines 213-234: keep a Stage-3 result only when it is non-null
and its refactored_code is truthy, and build the refactored_jobs entry. -/
def refactoredJobsOf (o : Oracles) (staging_dir : String)
    (job_list : List CodeChange) (vjobs : List VerifyJob) :
    List RefactoredJob :=
  vjobs.filterMap (fun vj =>
    match o.verify vj with
    | some r =>
        if r.refactored_code != "" then
          some (buildRefactoredJob staging_dir job_list r)
        else none
    | none => none)

/-- server.py lines 279-291: a file is written (and counted in
files_changed) when its staged path exists and the write does not raise. -/
def filesChangedOf (o : Oracles) (rjobs : List RefactoredJob) : List String :=
  (rjobs.filter (fun rj => o.file_exists rj.path && o.write_ok rj.path)).map
    RefactoredJob.path

def detailNoRefactor : String :=
  "Failed to refactor any files. Please check if the repository contains valid code files."

def detailNoVerify : String :=
  "Failed to verify any files. Please check if the repository contains valid code files."

def detailNoFork : String :=
  "Failed to access repository. Make sure GITHUB_TOKEN is configured correctly."

def detailCloneFailed : String := "Failed to clone repository"

def detailNoneUpdated : String := "No files were successfully updated"

/-- The try-block of the /update endpoint (server.py lines 146-341), from
Stage 1 through response construction.  Every early raise HTTPException and
every except clause becomes a RunOutcome.err. -/
def updateBody (staging_dir : String) (payload : Payload) (o : Oracles) :
    RunOutcome :=
  match o.run_script with
  | .error e => .err 500 ("Container execution error: " ++ e)
  | .ok job_list =>
    if job_list.isEmpty then
      .okNoFiles { status := "success",
                   message := "No outdated files found in repository",
                   repository := payload.repository,
                   files_analyzed := 0, files_updated := 0 }
    else
      let write_outputs := writeOutputsOf o job_list
      if write_outputs.isEmpty then .err 400 detailNoRefactor
      else
        let verify_jobs := buildVerifyJobs job_list write_outputs
        let refactored_jobs :=
          refactoredJobsOf o staging_dir job_list verify_jobs
        if refactored_jobs.isEmpty then .err 400 detailNoVerify
        else
          match o.create_fork with
          | .error e => .err 500 ("An unexpected error occurred: " ++ e)
          | .ok none => .err 400 detailNoFork
          | .ok (some fork) =>
            if !o.clone_ok then .err 400 detailCloneFailed
            else
              match o.load_repo with
              | .error e => .err 500 ("An unexpected error occurred: " ++ e)
              | .ok _ =>
                let files_changed := filesChangedOf o refactored_jobs
                if files_changed.isEmpty then .err 400 detailNoneUpdated
                else
                  match o.push_branch with
                  | .error e => .err 500 ("Git operation failed: " ++ e)
                  | .ok (branch, username) =>
                    match o.make_pr with
                    | .error e =>
                        .err 500 ("An unexpected error occurred: " ++ e)
                    | .ok pr_url =>
                      .ok { status := "success",
                            message := "Repository updated and pull request created successfully",
                            repository := payload.repository,
                            files_analyzed := job_list.length,
                            files_updated := files_changed.length,
                            branch := branch,
                            pull_request_url := pr_url,
                            is_own_repo := fork.is_own_repo,
                            output := refactored_jobs.take 5,
                            fork_info :=
                              if fork.is_own_repo then none
                              else some { fork_owner := username,
                                          fork_name := payload.repository_name } }

/-- The finally-block of server.py lines 355-362: when the staging
directory exists, shutil.rmtree is attempted; a failure of the rmtree call
itself is caught and only printed as a warning (lines 361-362), leaving the
directory in place.  rmtree_ok says whether that call succeeds. -/
def cleanupStaging (rmtree_ok : Bool) (staging_exists : Bool) : Bool :=
  if staging_exists then (if rmtree_ok then false else staging_exists)
  else staging_exists

/-- The whole /update endpoint (server.py lines 128-362) over the staging
filesystem modelled as one Boolean (does the staging directory exist).
Lines 150-155 delete any pre-existing staging directory and recreate it, so
the directory exists whatever staging0 was; the body then runs, and the
finally block attempts removal on every path, with rmtree_ok the outcome of
the rmtree call.  The result pairs the terminal outcome with the final
staging state. -/
def updateFinally (rmtree_ok : Bool) (staging0 : Bool) (staging_dir : String)
    (payload : Payload) (o : Oracles) : RunOutcome × Bool :=
  let staging_exists := true
  let result := updateBody staging_dir payload o
  (result, cleanupStaging rmtree_ok staging_exists)

/-- The endpoint in the runs where the final rmtree call succeeds. -/
def update (staging0 : Bool) (staging_dir : String) (payload : Payload)
    (o : Oracles) : RunOutcome × Bool :=
  updateFinally true staging0 staging_dir payload o

/-- Modelled from the spec (section 6): the shape the spec assigns to one
accepted ArtifactChangeSet, carrying path, original content, final content,
rationale and a verified flag.  server.py has no such record; this
definition exists only to compare the spec interface with the code's
RefactoredJob in claim C8. -/
structure SpecArtifactChangeSet where
  path : String
  original_content : String
  final_content : String
  rationale : String
  verified : Bool
  deriving DecidableEq

/-- Replace the verified and attempts fields of every Stage-3 result an
oracle set produces, leaving everything else unchanged.  Used to show the
/update response never depends on those fields. -/
def reflagVerify (f : VerifyOutput → Bool) (g : VerifyOutput → Nat)
    (o : Oracles) : Oracles :=
  { o with
    verify := fun vj =>
      (o.verify vj).map
        (fun r => { r with verified := f r, attempts := g r }) }

/-! ### Concrete fixtures used to instantiate the claims -/

def samplePayload : Payload := ⟨"repo", "ow", "nm"⟩

def sampleJobs : List CodeChange :=
  [⟨"a.py", "oldA", "re", true⟩, ⟨"b.py", "oldB", "re", true⟩]

/-- Collaborators that all succeed; Stage 2 drops b.py, so of the two
analyzed artifacts exactly one is updated. -/
def oPartial : Oracles :=
  { run_script := Except.ok sampleJobs,
    process_file := fun j =>
      if j.path == "a.py" then some ⟨"a.py", "newA", "cm"⟩ else none,
    verify := fun vj =>
      some ⟨vj.file_path, vj.refactored_code, vj.comments, true, 1⟩,
    create_fork := Except.ok (some ⟨true, "url", "log"⟩),
    clone_ok := true,
    load_repo := Except.ok (),
    file_exists := fun _ => true,
    write_ok := fun _ => true,
    push_branch := Except.ok ("br", "user"),
    make_pr := Except.ok "pr" }

/-- Same as oPartial except every Stage-3 result reports verified = false
with attempts = 3. -/
def oPartialUnverified : Oracles :=
  { oPartial with
    verify := fun vj =>
      some ⟨vj.file_path, vj.refactored_code, vj.comments, false, 3⟩ }

/-- Stage 2 produces no output for any artifact; every downstream
collaborator fails. -/
def oStage2Empty : Oracles :=
  { oPartial with
    process_file := fun _ => none,
    verify := fun _ => none,
    create_fork := Except.ok none,
    clone_ok := false,
    push_branch := Except.error "x",
    make_pr := Except.error "x" }

/-- Stage 2 produces no output for any artifact; every downstream
collaborator would succeed. -/
def oStage2EmptyAlt : Oracles :=
  { oPartial with process_file := fun _ => none }

/-- Stage 1 raises (the container run fails). -/
def oScriptError : Oracles :=
  { oPartial with run_script := Except.error "boom" }

/-- The git clone returns a nonzero exit code. -/
def oCloneFail : Oracles := { oPartial with clone_ok := false }

/-- The response the endpoint produces under oPartial. -/
def samplePartialResponse : SuccessResponse :=
  ⟨"success", "Repository updated and pull request created successfully",
   "repo", 2, 1, "br", "pr", true, [⟨"/s/a.py", "newA", "oldA", "cm"⟩], none⟩

/-! ### Helper lemmas about the loop -/

theorem verifyLoopAux_attempts_le (validator : Nat → String → Option VerifyResult)
    (fixer : Nat → String → Option String) (job : VerifyJob) :
    ∀ (remaining attempt : Nat) (current : String) (validations : Nat),
      attempt + remaining ≤ MAX_RETRIES + 1 →
      (verifyLoopAux validator fixer job remaining attempt current
        validations).1.attempts ≤ MAX_RETRIES + 1 := by
  intro remaining
  induction remaining with
  | zero =>
      intro attempt current validations _
      simp [verifyLoopAux, exhaustedOutput]
  | succ n ih =>
      intro attempt current validations h
      rw [verifyLoopAux]
      by_cases hacc : acceptOutcome ((validator attempt current).getD fallbackResult) = true
      · simp only [hacc, if_true]
        simp only [verifiedOutput]
        omega
      · simp only [hacc, if_false]
        by_cases hlt : attempt < MAX_RETRIES
        · simp only [hlt, if_true]
          cases fixer attempt current with
          | none => simp [exhaustedOutput]
          | some fixed => exact ih (attempt + 1) fixed (validations + 1) (by omega)
        · simp only [hlt, if_false]
          exact ih (attempt + 1) current (validations + 1) (by omega)

theorem verifyLoopAux_not_verified_attempts
    (validator : Nat → String → Option VerifyResult)
    (fixer : Nat → String → Option String) (job : VerifyJob) :
    ∀ (remaining attempt : Nat) (current : String) (validations : Nat),
      (verifyLoopAux validator fixer job remaining attempt current
        validations).1.verified = false →
      (verifyLoopAux validator fixer job remaining attempt current
        validations).1.attempts = MAX_RETRIES + 1 := by
  intro remaining
  induction remaining with
  | zero =>
      intro attempt current validations _
      simp [verifyLoopAux, exhaustedOutput]
  | succ n ih =>
      intro attempt current validations h
      rw [verifyLoopAux] at h ⊢
      by_cases hacc : acceptOutcome ((validator attempt current).getD fallbackResult) = true
      · simp only [hacc, if_true] at h
        simp [verifiedOutput] at h
      · simp only [hacc, if_false] at h ⊢
        by_cases hlt : attempt < MAX_RETRIES
        · simp only [hlt, if_true] at h ⊢
          cases hfx : fixer attempt current with
          | none => simp [exhaustedOutput]
          | some fixed =>
              rw [hfx] at h
              exact ih (attempt + 1) fixed (validations + 1) h
        · simp only [hlt, if_false] at h ⊢
          exact ih (attempt + 1) current (validations + 1) h

theorem verifyLoopAux_always_reject
    (validator : Nat → String → Option VerifyResult)
    (fixer : Nat → String → Option String) (job : VerifyJob)
    (hfix : ∀ a c, (fixer a c).isSome)
    (hval : ∀ a c, ∃ r, validator a c = some r ∧
      r.passed = some false ∧ r.confidence = some 0) :
    ∀ (remaining attempt : Nat) (current : String) (validations : Nat),
      (verifyLoopAux validator fixer job remaining attempt current
        validations).2 = validations + remaining ∧
      (verifyLoopAux validator fixer job remaining attempt current
        validations).1.verified = false := by
  intro remaining
  induction remaining with
  | zero =>
      intro attempt current validations
      simp [verifyLoopAux, exhaustedOutput]
  | succ n ih =>
      intro attempt current validations
      obtain ⟨r, hr, hp, hc⟩ := hval attempt current
      have hacc : acceptOutcome ((validator attempt current).getD fallbackResult) = false := by
        rw [hr]
        simp only [Option.getD_some, acceptOutcome, hp, hc]
        norm_num
      rw [verifyLoopAux]
      simp only [hacc, Bool.false_eq_true, if_false]
      by_cases hlt : attempt < MAX_RETRIES
      · simp only [hlt, if_true]
        obtain ⟨fixed, hfixed⟩ := Option.isSome_iff_exists.mp (hfix attempt current)
        rw [hfixed]
        have := ih (attempt + 1) fixed (validations + 1)
        exact ⟨by rw [this.1]; omega, this.2⟩
      · simp only [hlt, if_false]
        have := ih (attempt + 1) current (validations + 1)
        exact ⟨by rw [this.1]; omega, this.2⟩

/-- Unfolding equation for one iteration of the loop. -/
theorem verifyLoopAux_succ (validator : Nat → String → Option VerifyResult)
    (fixer : Nat → String → Option String) (job : VerifyJob)
    (remaining attempt : Nat) (current : String) (validations : Nat) :
    verifyLoopAux validator fixer job (remaining + 1) attempt current
        validations =
      if acceptOutcome ((validator attempt current).getD fallbackResult) then
        (verifiedOutput job current attempt, validations + 1)
      else if attempt < MAX_RETRIES then
        match fixer attempt current with
        | none => (exhaustedOutput job current, validations + 1)
        | some fixed =>
            verifyLoopAux validator fixer job remaining (attempt + 1) fixed
              (validations + 1)
      else
        verifyLoopAux validator fixer job remaining (attempt + 1) current
          (validations + 1) := rfl

/-- An accepted validation ends the loop at once with a verified output. -/
theorem verifyLoopAux_accept (validator : Nat → String → Option VerifyResult)
    (fixer : Nat → String → Option String) (job : VerifyJob)
    (remaining attempt : Nat) (current : String) (validations : Nat)
    (hacc : acceptOutcome ((validator attempt current).getD fallbackResult)
      = true) :
    verifyLoopAux validator fixer job (remaining + 1) attempt current
        validations = (verifiedOutput job current attempt, validations + 1) := by
  rw [verifyLoopAux_succ, hacc, if_pos rfl]

/-- A rejected validation whose analyze-or-fix call raises ends the loop at
once with the exhausted output, keeping the current candidate. -/
theorem verifyLoopAux_fix_error (validator : Nat → String → Option VerifyResult)
    (fixer : Nat → String → Option String) (job : VerifyJob)
    (remaining attempt : Nat) (current : String) (validations : Nat)
    (hrej : acceptOutcome ((validator attempt current).getD fallbackResult)
      = false)
    (hlt : attempt < MAX_RETRIES)
    (hfail : fixer attempt current = none) :
    verifyLoopAux validator fixer job (remaining + 1) attempt current
        validations = (exhaustedOutput job current, validations + 1) := by
  rw [verifyLoopAux_succ, hrej]
  simp only [Bool.false_eq_true, if_false, hlt, if_true, hfail]

/-! ### Claim theorems on the Verification-Repair state machine -/

/-- C1: for every verification job the verify_and_fix loop terminates with a
reported attempt count at most MAX_RETRIES + 1; and for any validator that
always returns passed = false with confidence 0.0 (and any analyzer/fixer
pair that never raises), the loop performs exactly MAX_RETRIES + 1
VALIDATING entries and returns a result with verified = false. -/
theorem C1_retry_loop_bounded (validator : Nat → String → Option VerifyResult)
    (fixer : Nat → String → Option String) (job : VerifyJob) :
    (verify_and_fix validator fixer job).1.attempts ≤ MAX_RETRIES + 1 ∧
    ((∀ a c, (fixer a c).isSome) →
      (∀ a c, ∃ r, validator a c = some r ∧ r.passed = some false ∧
        r.confidence = some 0) →
      (verify_and_fix validator fixer job).2 = MAX_RETRIES + 1 ∧
      (verify_and_fix validator fixer job).1.verified = false) := by
  constructor
  · exact verifyLoopAux_attempts_le validator fixer job (MAX_RETRIES + 1) 0
      job.refactored_code 0 (by omega)
  · intro hfix hval
    have h := verifyLoopAux_always_reject validator fixer job hfix hval
      (MAX_RETRIES + 1) 0 job.refactored_code 0
    rw [verify_and_fix]
    exact ⟨by rw [h.1]; omega, h.2⟩

theorem C1_retry_loop_bounded_witness :
    (verify_and_fix (fun _ _ => some ⟨some false, some 0, []⟩)
        (fun _ c => some c) ⟨"a.py", "orig", "ref", "cm"⟩).1.attempts ≤
      MAX_RETRIES + 1 ∧
    (verify_and_fix (fun _ _ => some ⟨some false, some 0, []⟩)
        (fun _ c => some c) ⟨"a.py", "orig", "ref", "cm"⟩).2 =
      MAX_RETRIES + 1 ∧
    (verify_and_fix (fun _ _ => some ⟨some false, some 0, []⟩)
        (fun _ c => some c) ⟨"a.py", "orig", "ref", "cm"⟩).1.verified =
      false := by
  have h := C1_retry_loop_bounded (fun _ _ => some ⟨some false, some 0, []⟩)
    (fun _ c => some c) ⟨"a.py", "orig", "ref", "cm"⟩
  have h2 := h.2 (fun _ _ => rfl)
    (fun _ _ => ⟨⟨some false, some 0, []⟩, rfl, rfl, rfl⟩)
  exact ⟨h.1, h2.1, h2.2⟩

/-- C2: a validation outcome is accepted exactly when passed is true or
confidence exceeds 0.85; a validator returning passed = false with
confidence 0.9 on the first call yields verified = true with attempts = 1
and the candidate unchanged from the input refactored_code. -/
theorem C2_acceptance_rule (r : VerifyResult)
    (fixer : Nat → String → Option String) (job : VerifyJob) :
    (acceptOutcome r = true ↔
      (r.passed.getD false = true ∨ (85 : ℚ)/100 < r.confidence.getD 0)) ∧
    verify_and_fix
        (fun _ _ => some ⟨some false, some (Rat.divInt 9 10), []⟩) fixer job
      = (verifiedOutput job job.refactored_code 0, 1) ∧
    (verifiedOutput job job.refactored_code 0).verified = true ∧
    (verifiedOutput job job.refactored_code 0).attempts = 1 ∧
    (verifiedOutput job job.refactored_code 0).refactored_code =
      job.refactored_code ∧
    Rat.divInt 9 10 = (9 : ℚ)/10 := by
  refine ⟨?_, ?_, rfl, rfl, rfl, by norm_num [Rat.divInt_eq_div]⟩
  · rw [acceptOutcome, Bool.or_eq_true, decide_eq_true_eq]
    have : Rat.divInt 85 100 = (85 : ℚ)/100 := by norm_num [Rat.divInt_eq_div]
    rw [this]
  · rw [verify_and_fix]
    exact verifyLoopAux_accept _ _ _ _ _ _ _ (by decide)

/-- C6: when the validator invocation raises or its output cannot be parsed,
the outcome is replaced by a pass at confidence 0.5; that VALIDATING entry
is accepted, so a job whose first validation is unparseable returns
verified = true with the candidate unchanged. -/
theorem C6_unparseable_validator_passes
    (validator : Nat → String → Option VerifyResult)
    (fixer : Nat → String → Option String) (job : VerifyJob)
    (h : validator 0 job.refactored_code = none) :
    fallbackResult.passed = some true ∧
    fallbackResult.confidence = some (mkRat 1 2) ∧ mkRat 1 2 = (1 : ℚ)/2 ∧
    acceptOutcome fallbackResult = true ∧
    verify_and_fix validator fixer job =
      (verifiedOutput job job.refactored_code 0, 1) ∧
    (verifiedOutput job job.refactored_code 0).verified = true ∧
    (verifiedOutput job job.refactored_code 0).refactored_code =
      job.refactored_code := by
  refine ⟨rfl, rfl, by norm_num [Rat.mkRat_eq_div], by decide, ?_, rfl, rfl⟩
  rw [verify_and_fix]
  exact verifyLoopAux_accept _ _ _ _ _ _ _ (by rw [h]; decide)

theorem C6_unparseable_validator_passes_witness :
    acceptOutcome fallbackResult = true ∧
    verify_and_fix (fun _ _ => none) (fun _ _ => none)
        ⟨"a.py", "orig", "ref", "cm"⟩ =
      (verifiedOutput ⟨"a.py", "orig", "ref", "cm"⟩ "ref" 0, 1) := by
  have h := C6_unparseable_validator_passes (fun _ _ => none) (fun _ _ => none)
    ⟨"a.py", "orig", "ref", "cm"⟩ rfl
  exact ⟨h.2.2.2.1, h.2.2.2.2.1⟩

/-- C7: an error raised during the ANALYZING or REPAIRING step aborts only
the retry loop: the function returns normally with the candidate it holds
and verified = false (the claim's exhausted report). -/
theorem C7_fix_error_aborts_loop_only
    (validator : Nat → String → Option VerifyResult)
    (fixer : Nat → String → Option String) (job : VerifyJob)
    (remaining attempt : Nat) (current : String) (validations : Nat)
    (hrej : acceptOutcome ((validator attempt current).getD fallbackResult)
      = false)
    (hlt : attempt < MAX_RETRIES)
    (hfail : fixer attempt current = none) :
    verifyLoopAux validator fixer job (remaining + 1) attempt current
        validations = (exhaustedOutput job current, validations + 1) ∧
    (exhaustedOutput job current).verified = false ∧
    (exhaustedOutput job current).refactored_code = current := by
  exact ⟨verifyLoopAux_fix_error validator fixer job remaining attempt current
    validations hrej hlt hfail, rfl, rfl⟩

theorem C7_fix_error_aborts_loop_only_witness :
    verifyLoopAux (fun _ _ => some ⟨some false, some 0, []⟩) (fun _ _ => none)
        ⟨"a.py", "orig", "ref", "cm"⟩ (2 + 1) 0 "ref" 0 =
      (exhaustedOutput ⟨"a.py", "orig", "ref", "cm"⟩ "ref", 1) ∧
    (exhaustedOutput ⟨"a.py", "orig", "ref", "cm"⟩ "ref").verified = false := by
  have h := C7_fix_error_aborts_loop_only
    (fun _ _ => some ⟨some false, some 0, []⟩) (fun _ _ => none)
    ⟨"a.py", "orig", "ref", "cm"⟩ 2 0 "ref" 0 (by decide) (by decide) rfl
  exact ⟨h.1, h.2.1⟩

/-- C10: whenever verify_and_fix returns verified = false the reported
attempts field is the constant MAX_RETRIES + 1 regardless of how many
validations occurred; and there is an input (the fixer raising on the first
failed attempt) where strictly fewer than MAX_RETRIES + 1 validations were
performed yet attempts = MAX_RETRIES + 1 is reported. -/
theorem C10_attempts_overreported
    (validator : Nat → String → Option VerifyResult)
    (fixer : Nat → String → Option String) (job : VerifyJob) :
    ((verify_and_fix validator fixer job).1.verified = false →
      (verify_and_fix validator fixer job).1.attempts = MAX_RETRIES + 1) ∧
    (∃ v f j, (verify_and_fix v f j).2 < MAX_RETRIES + 1 ∧
      (verify_and_fix v f j).1.verified = false ∧
      (verify_and_fix v f j).1.attempts = MAX_RETRIES + 1) := by
  constructor
  · exact verifyLoopAux_not_verified_attempts validator fixer job
      (MAX_RETRIES + 1) 0 job.refactored_code 0
  · refine ⟨fun _ _ => some ⟨some false, some 0, []⟩, fun _ _ => none,
      ⟨"a.py", "orig", "ref", "cm"⟩, ?_, ?_, ?_⟩ <;> decide

theorem C10_attempts_overreported_witness :
    (verify_and_fix (fun _ _ => some ⟨some false, some 0, []⟩)
        (fun _ _ => none) ⟨"a.py", "orig", "ref", "cm"⟩).1.verified = false ∧
    (verify_and_fix (fun _ _ => some ⟨some false, some 0, []⟩)
        (fun _ _ => none) ⟨"a.py", "orig", "ref", "cm"⟩).1.attempts =
      MAX_RETRIES + 1 := by
  refine ⟨by decide, ?_⟩
  exact (C10_attempts_overreported (fun _ _ => some ⟨some false, some 0, []⟩)
    (fun _ _ => none) ⟨"a.py", "orig", "ref", "cm"⟩).1 (by decide)

/-! ### Claim theorems on the enumerator and the correlator join -/

/-- C5 (amended): the enumerator filter skips every file whose basename
starts with a dot, every file ending in a denylisted extension, and every
path containing a .git/ run, and everything fetch_updates returns comes
from an enumerated file that passed the filter; but .txt is not in the
denylist, so in the a.txt/b.py scenario a.txt survives the extension filter
and the enumerated set references both files when the analyzer flags both
(a.txt is excluded only if the analyzer declines it). -/
theorem C5_enumerator_exclusion (analyze : String → Option CodeChange)
    (files : List String) (c : CodeChange) (fp ext : String) :
    (c ∈ fetch_updates analyze files →
      isSkippedFile c.path = false ∧ c.path ∈ files) ∧
    (strStartsWith (basename fp) "." = true → isSkippedFile fp = true) ∧
    (ext ∈ DENYLIST → strEndsWith fp ext = true → isSkippedFile fp = true) ∧
    (containsStr fp ".git/" = true → isSkippedFile fp = true) ∧
    isSkippedFile "root/a.txt" = false ∧
    (fetch_updates (fun q => some ⟨q, "c", "r", true⟩)
        (get_all_files_recursively "root" [.file "a.txt", .file "b.py"])).map
      CodeChange.path = ["root/a.txt", "root/b.py"] := by
  refine ⟨?_, ?_, ?_, ?_, rfl, rfl⟩
  · intro h
    rw [fetch_updates] at h
    obtain ⟨fp2, hfp2, heq⟩ := List.mem_filterMap.mp h
    split at heq
    · exact absurd heq (by simp)
    · rename_i hsk
      split at heq
      · exact absurd heq (by simp)
      · rename_i r ha
        split at heq
        · exact absurd heq (by simp)
        · have hc : ({ r with path := fp2 } : CodeChange) = c :=
            Option.some.inj heq
          rw [← hc]
          exact ⟨by simpa using hsk, hfp2⟩
  · intro h
    simp [isSkippedFile, h]
  · intro hmem hend
    simp only [isSkippedFile, Bool.or_eq_true]
    exact Or.inl (Or.inr (List.any_eq_true.mpr ⟨ext, hmem, hend⟩))
  · intro h
    simp [isSkippedFile, h]

theorem C5_enumerator_exclusion_witness :
    isSkippedFile "root/sub/.hidden" = true ∧
    isSkippedFile "root/style.css" = true ∧
    isSkippedFile "root/.git/config" = true ∧
    isSkippedFile "root/b.py" = false := by
  refine ⟨?_, ?_, ?_, ?_⟩
  · exact (C5_enumerator_exclusion (fun _ => none) [] ⟨"", "", "", true⟩
      "root/sub/.hidden" "").2.1 rfl
  · exact (C5_enumerator_exclusion (fun _ => none) [] ⟨"", "", "", true⟩
      "root/style.css" ".css").2.2.1 (by decide) rfl
  · exact (C5_enumerator_exclusion (fun _ => none) [] ⟨"", "", "", true⟩
      "root/.git/config" "").2.2.2.1 rfl
  · exact ((C5_enumerator_exclusion (fun q => some ⟨q, "c", "r", true⟩)
      ["root/b.py"] ⟨"root/b.py", "c", "r", true⟩ "" "").1 (by decide)).1

theorem C5_counterexample :
    isSkippedFile "root/a.txt" = false ∧
    "root/a.txt" ∈ (fetch_updates (fun q => some ⟨q, "c", "r", true⟩)
        (get_all_files_recursively "root" [.file "a.txt", .file "b.py"])).map
      CodeChange.path ∧
    (fetch_updates (fun q => some ⟨q, "c", "r", true⟩)
        (get_all_files_recursively "root" [.file "a.txt", .file "b.py"])).map
      CodeChange.path ≠ ["root/b.py"] := by
  exact ⟨rfl, by decide, by decide⟩

/-- C4 (amended): the correlator join never pairs two different identities
(a lookup hit carries exactly the searched path, and the built verify job
keeps the right-side path); but a right-side entry whose path matches no
Stage-1 entry is not dropped: it is kept and paired with an empty-string
original (both in the Stage-2 join and in the Stage-3 join). -/
theorem C4_join_never_mismatches (job_list : List CodeChange) (fp : String)
    (j : CodeChange) (w : WriteOutput) (ws : List WriteOutput)
    (staging_dir : String) (r : VerifyOutput) :
    (findOriginal job_list fp = some j → j.path = fp) ∧
    (buildVerifyJob job_list w).file_path = w.file_path ∧
    (findOriginal job_list w.file_path = none →
      buildVerifyJob job_list w =
        ⟨w.file_path, "", w.refactored_code, w.refactored_code_comments⟩) ∧
    (buildVerifyJobs job_list ws).length = ws.length ∧
    (findOriginal job_list r.file_path = none →
      (buildRefactoredJob staging_dir job_list r).old_content = "") := by
  refine ⟨?_, rfl, ?_, by simp [buildVerifyJobs], ?_⟩
  · intro h
    rw [findOriginal] at h
    have hb : (fun j2 => j2.path == fp) j = true :=
      @List.find?_some CodeChange (fun j2 => j2.path == fp) j job_list h
    exact eq_of_beq hb
  · intro h
    simp [buildVerifyJob, h]
  · intro h
    simp [buildRefactoredJob, h]

theorem C4_join_never_mismatches_witness :
    ((findOriginal [⟨"b.py", "oc", "re", true⟩] "b.py" =
        some ⟨"b.py", "oc", "re", true⟩) ∧
      (⟨"b.py", "oc", "re", true⟩ : CodeChange).path = "b.py") ∧
    buildVerifyJob [⟨"b.py", "oc", "re", true⟩] ⟨"a.py", "new", "cm"⟩ =
      ⟨"a.py", "", "new", "cm"⟩ := by
  refine ⟨⟨rfl, ?_⟩, ?_⟩
  · exact (C4_join_never_mismatches [⟨"b.py", "oc", "re", true⟩] "b.py"
      ⟨"b.py", "oc", "re", true⟩ ⟨"a.py", "new", "cm"⟩ [] "/s"
      ⟨"a.py", "n", "c", true, 1⟩).1 rfl
  · exact (C4_join_never_mismatches [⟨"b.py", "oc", "re", true⟩] "b.py"
      ⟨"b.py", "oc", "re", true⟩ ⟨"a.py", "new", "cm"⟩ [] "/s"
      ⟨"a.py", "n", "c", true, 1⟩).2.2.1 rfl

theorem C4_counterexample :
    buildVerifyJobs [] [⟨"a.py", "new", "cm"⟩] = [⟨"a.py", "", "new", "cm"⟩] ∧
    buildVerifyJobs [] [⟨"a.py", "new", "cm"⟩] ≠ [] := by
  exact ⟨rfl, by decide⟩

/-! ### Helper lemmas about the /update pipeline -/

theorem writeOutputsOf_eq_nil (o : Oracles) (jl : List CodeChange)
    (hempty : ∀ j ∈ jl, ∀ w, o.process_file j = some w →
      w.refactored_code = "") :
    writeOutputsOf o jl = [] := by
  rw [writeOutputsOf, List.filterMap_eq_nil_iff]
  intro j hj
  cases hpw : o.process_file j with
  | none => simp [hpw]
  | some w => simp [hpw, hempty j hj w hpw]

theorem updateBody_stage2_empty (sd : String) (p : Payload) (o : Oracles)
    (jl : List CodeChange) (hrun : o.run_script = .ok jl) (hne : jl ≠ [])
    (hempty : ∀ j ∈ jl, ∀ w, o.process_file j = some w →
      w.refactored_code = "") :
    updateBody sd p o = .err 400 detailNoRefactor := by
  have hw := writeOutputsOf_eq_nil o jl hempty
  cases jl with
  | nil => exact absurd rfl hne
  | cons a l => simp [updateBody, hrun, hw]

theorem filesChangedOf_length_le (o : Oracles) (rjobs : List RefactoredJob) :
    (filesChangedOf o rjobs).length ≤ rjobs.length := by
  rw [filesChangedOf, List.length_map]
  exact List.length_filter_le _ _

theorem refactoredJobsOf_length_le (o : Oracles) (sd : String)
    (jl : List CodeChange) (vjobs : List VerifyJob) :
    (refactoredJobsOf o sd jl vjobs).length ≤ vjobs.length := by
  rw [refactoredJobsOf]
  exact List.length_filterMap_le _ _

theorem buildVerifyJobs_length (jl : List CodeChange)
    (ws : List WriteOutput) : (buildVerifyJobs jl ws).length = ws.length := by
  rw [buildVerifyJobs]
  exact List.length_map _ _

theorem writeOutputsOf_length_le (o : Oracles) (jl : List CodeChange) :
    (writeOutputsOf o jl).length ≤ jl.length := by
  rw [writeOutputsOf]
  exact List.length_filterMap_le _ _

/-- Only the file_path, refactored_code and refactored_code_comments fields
of a Stage-3 result influence refactored_jobs: reassigning verified and
attempts changes nothing. -/
theorem refactoredJobsOf_reflag (f : VerifyOutput → Bool)
    (g : VerifyOutput → Nat) (o : Oracles) :
    refactoredJobsOf (reflagVerify f g o) = refactoredJobsOf o := by
  funext sd jl vjobs
  rw [refactoredJobsOf, refactoredJobsOf]
  apply List.filterMap_congr
  intro vj _
  cases h : o.verify vj with
  | none => simp [reflagVerify, h]
  | some r => simp [reflagVerify, h, buildRefactoredJob]

theorem updateBody_reflag (f : VerifyOutput → Bool) (g : VerifyOutput → Nat)
    (sd : String) (p : Payload) (o : Oracles) :
    updateBody sd p (reflagVerify f g o) = updateBody sd p o := by
  have hw : writeOutputsOf (reflagVerify f g o) = writeOutputsOf o := rfl
  have hf : filesChangedOf (reflagVerify f g o) = filesChangedOf o := rfl
  have h1 : (reflagVerify f g o).run_script = o.run_script := rfl
  have h2 : (reflagVerify f g o).create_fork = o.create_fork := rfl
  have h3 : (reflagVerify f g o).clone_ok = o.clone_ok := rfl
  have h4 : (reflagVerify f g o).load_repo = o.load_repo := rfl
  have h5 : (reflagVerify f g o).push_branch = o.push_branch := rfl
  have h6 : (reflagVerify f g o).make_pr = o.make_pr := rfl
  unfold updateBody
  rw [refactoredJobsOf_reflag f g o, hw, hf, h1, h2, h3, h4, h5, h6]

/-- When a run reaches the success response, files_analyzed is the Stage-1
count and files_updated cannot exceed it. -/
theorem updateBody_ok_fields (sd : String) (p : Payload) (o : Oracles)
    (jl : List CodeChange) (r : SuccessResponse)
    (hrun : o.run_script = .ok jl)
    (hok : updateBody sd p o = .ok r) :
    r.files_analyzed = jl.length ∧ r.files_updated ≤ jl.length := by
  unfold updateBody at hok
  rw [hrun] at hok
  simp only at hok
  repeat' split at hok
  any_goals exact RunOutcome.noConfusion hok
  all_goals
    cases hok
    refine ⟨rfl, ?_⟩
    calc (filesChangedOf o (refactoredJobsOf o sd jl
             (buildVerifyJobs jl (writeOutputsOf o jl)))).length
        ≤ (refactoredJobsOf o sd jl
             (buildVerifyJobs jl (writeOutputsOf o jl))).length :=
          filesChangedOf_length_le _ _
      _ ≤ (buildVerifyJobs jl (writeOutputsOf o jl)).length :=
          refactoredJobsOf_length_le _ _ _ _
      _ = (writeOutputsOf o jl).length := buildVerifyJobs_length _ _
      _ ≤ jl.length := writeOutputsOf_length_le _ _

/-! ### Claim theorems on the /update pipeline -/

/-- C3 (amended): when Stage 1 found artifacts but Stage 2 produced no
output for any of them, the run returns the HTTP 400 failure
detailNoRefactor rather than a success response, and the outcome is
independent of the Stage-3 verifier and of the fork, clone, git and
pull-request collaborators (they are never consulted). -/
theorem C3_stage2_empty_returns_400 (staging0 : Bool) (sd : String)
    (p : Payload) (o o2 : Oracles) (jl : List CodeChange)
    (hrun : o.run_script = .ok jl) (hne : jl ≠ [])
    (hempty : ∀ j ∈ jl, ∀ w, o.process_file j = some w →
      w.refactored_code = "")
    (hrun2 : o2.run_script = .ok jl)
    (hpf : o2.process_file = o.process_file) :
    (update staging0 sd p o).1 = .err 400 detailNoRefactor ∧
    (update staging0 sd p o).1.isSuccess = false ∧
    update staging0 sd p o = update staging0 sd p o2 := by
  have hempty2 : ∀ j ∈ jl, ∀ w, o2.process_file j = some w →
      w.refactored_code = "" := by
    intro j hj w hw
    rw [hpf] at hw
    exact hempty j hj w hw
  have h1 := updateBody_stage2_empty sd p o jl hrun hne hempty
  have h2 := updateBody_stage2_empty sd p o2 jl hrun2 hne hempty2
  have e1 : update staging0 sd p o = (updateBody sd p o, false) := rfl
  have e2 : update staging0 sd p o2 = (updateBody sd p o2, false) := rfl
  rw [e1, e2, h1, h2]
  exact ⟨rfl, rfl, rfl⟩

theorem C3_stage2_empty_returns_400_witness :
    update false "/s" samplePayload oStage2Empty =
      update false "/s" samplePayload oStage2EmptyAlt := by
  exact (C3_stage2_empty_returns_400 false "/s" samplePayload oStage2Empty
    oStage2EmptyAlt sampleJobs rfl (by decide)
    (fun j hj w hw => Option.noConfusion hw) rfl rfl).2.2

theorem C3_counterexample :
    (update false "/s" samplePayload oStage2EmptyAlt).1 =
      .err 400 detailNoRefactor ∧
    (update false "/s" samplePayload oStage2EmptyAlt).1.isSuccess = false := by
  exact ⟨rfl, rfl⟩

/-- C9 (amended): the finally block runs before the terminal outcome of
every run is returned, but it only attempts removal: the outcome is never
affected by the cleanup, the staging directory is removed exactly when the
rmtree call succeeds, and a failing rmtree is swallowed, leaving the
directory in place.  Success, business-logic-failure (HTTP 400) and
unexpected-exception (HTTP 500) exits are all realizable, each cleaned up
when rmtree succeeds. -/
theorem C9_staging_cleanup_best_effort :
    (∀ (rmtree_ok staging0 : Bool) (sd : String) (p : Payload) (o : Oracles),
      (updateFinally rmtree_ok staging0 sd p o).1 = updateBody sd p o ∧
      ((updateFinally rmtree_ok staging0 sd p o).2 = false ↔
        rmtree_ok = true)) ∧
    ((update false "/s" samplePayload oPartial).1.isSuccess = true ∧
      (update false "/s" samplePayload oPartial).2 = false) ∧
    ((update false "/s" samplePayload oCloneFail).1 =
        .err 400 detailCloneFailed ∧
      (update false "/s" samplePayload oCloneFail).2 = false) ∧
    ((update false "/s" samplePayload oScriptError).1 =
        .err 500 "Container execution error: boom" ∧
      (update false "/s" samplePayload oScriptError).2 = false) := by
  refine ⟨fun rmtree_ok s0 sd p o => ⟨rfl, ?_⟩,
    ⟨rfl, rfl⟩, ⟨rfl, rfl⟩, ⟨rfl, rfl⟩⟩
  cases rmtree_ok <;> simp [updateFinally, cleanupStaging]

/-- A run whose cleanup rmtree raises returns its terminal success response
with the staging directory still present: removal on every exit path does
not hold. -/
theorem C9_counterexample :
    (updateFinally false false "/s" samplePayload oPartial).1.isSuccess =
      true ∧
    (updateFinally false false "/s" samplePayload oPartial).2 = true := by
  exact ⟨rfl, rfl⟩

/-- C8 (amended): the success response of a run reports files_analyzed (the
Stage-1 count) and files_updated (the applied count, at most the former),
whose difference counts the dropped artifacts; there is no rejected_count
field, and the accepted change sets carry no verified flag: the whole
response is invariant under arbitrary reassignment of every Stage-3
result's verified and attempts fields. -/
theorem C8_response_shape (f : VerifyOutput → Bool) (g : VerifyOutput → Nat)
    (staging0 : Bool) (sd : String) (p : Payload) (o : Oracles)
    (jl : List CodeChange) (r : SuccessResponse)
    (hrun : o.run_script = .ok jl)
    (hok : (update staging0 sd p o).1 = .ok r) :
    update staging0 sd p (reflagVerify f g o) = update staging0 sd p o ∧
    r.files_analyzed = jl.length ∧
    r.files_updated ≤ r.files_analyzed := by
  have hb : updateBody sd p o = .ok r := hok
  have hfields := updateBody_ok_fields sd p o jl r hrun hb
  refine ⟨?_, hfields.1, ?_⟩
  · have e1 : update staging0 sd p (reflagVerify f g o) =
        (updateBody sd p (reflagVerify f g o), false) := rfl
    have e2 : update staging0 sd p o = (updateBody sd p o, false) := rfl
    rw [e1, e2, updateBody_reflag]
  · rw [hfields.1]
    exact hfields.2

theorem C8_response_shape_witness :
    update false "/s" samplePayload
        (reflagVerify (fun _ => false) (fun _ => 0) oPartial) =
      update false "/s" samplePayload oPartial ∧
    samplePartialResponse.files_analyzed = sampleJobs.length ∧
    samplePartialResponse.files_updated ≤
      samplePartialResponse.files_analyzed := by
  exact C8_response_shape (fun _ => false) (fun _ => 0) false "/s"
    samplePayload oPartial sampleJobs samplePartialResponse rfl rfl

theorem C8_counterexample :
    update false "/s" samplePayload oPartial =
      update false "/s" samplePayload oPartialUnverified ∧
    oPartial.verify ⟨"a.py", "oldA", "newA", "cm"⟩ ≠
      oPartialUnverified.verify ⟨"a.py", "oldA", "newA", "cm"⟩ ∧
    (update false "/s" samplePayload oPartial).1 = .ok samplePartialResponse ∧
    samplePartialResponse.files_analyzed = 2 ∧
    samplePartialResponse.files_updated = 1 := by
  exact ⟨rfl, by decide, rfl, rfl, rfl⟩

end Dependify
